import Mathlib

/-
Verification of the BFF authentication server (server entry point, the file
with the /auth/sso, /auth/login, /auth/callback, /auth/me and /auth/logout
express handlers). Each handler is shallowly embedded as a pure function
from the request inputs and the stored session to the (persisted session,
HTTP response) pair. External library operations (PKCE challenge hashing,
URL percent-encoding, the authorization-code token exchange) are passed in
as parameters, since they live in openid-client / the platform, not in this
repository; the session store's acknowledgements (session.save callback,
session.destroy callback) are passed in as booleans.
-/

namespace TestSSO

/-- Identity claims extracted from the ID token (callback handler, success path). -/
structure UserInfo where
  name : Option String
  email : Option String
  sub : Option String
  oid : Option String
deriving DecidableEq, Repr

/-- Token set stored in the session on callback success. -/
structure Tokens where
  accessToken : Option String
  refreshToken : Option String
  idToken : Option String
  expiresAt : Option Nat
deriving DecidableEq, Repr

/-- The express session object: every field the server reads or writes on
`req.session`. `none` stands for a JS `undefined`/deleted field; `authenticated`
is only ever set to `true` by the code, so a plain Bool (false = unset) is faithful. -/
structure Session where
  codeVerifier : Option String := none
  state : Option String := none
  nonce : Option String := none
  isSso : Option Bool := none
  authenticated : Bool := false
  user : Option UserInfo := none
  tokens : Option Tokens := none
  csrfToken : Option String := none
deriving DecidableEq, Repr

/-- A brand-new (or destroyed-and-recreated) session: all fields unset. -/
def emptySession : Session := {}

/-- JS truthiness of an optional string: `undefined`/`null` and the empty
string are falsy, every other string is truthy. -/
def strTruthy : Option String → Bool
  | none => false
  | some s => decide (s ≠ "")

/-- JS `a || b` on two optional strings (used for `req.body.csrfToken ||
req.headers[...]` and `claims.email || claims.preferred_username`). -/
def jsOrStr (a b : Option String) : Option String :=
  if strTruthy a then a else b

/-- The parameter object handed to openid-client's buildAuthorizationUrl;
the constructed authorization URL carries exactly these query parameters. -/
structure AuthParams where
  redirect_uri : String
  scope : String
  code_challenge : String
  code_challenge_method : String
  state : String
  nonce : String
  prompt : Option String
deriving DecidableEq, Repr

/-- JSON bodies the server sends (res.json literals in the source). -/
inductive JsonBody where
  | errorMsg (error : String)
  | authError (error : String) (errorCode : Option String) (errorDescription : Option String)
  | me (authenticated : Bool) (user : Option UserInfo) (csrfToken : Option String)
  | logout (logoutUrl : String)
deriving DecidableEq, Repr

/-- HTTP responses the handlers produce. `authRedirect` is the 302 to the
provider authorization URL built from the given parameters. -/
inductive Response where
  | redirect (location : String)
  | authRedirect (params : AuthParams)
  | json (status : Nat) (body : JsonBody)
  | send (status : Nat) (body : String)
deriving DecidableEq, Repr

/-- HTTP status code of a response (res.redirect is a 302). -/
def Response.status : Response → Nat
  | .redirect _ => 302
  | .authRedirect _ => 302
  | .json s _ => s
  | .send s _ => s

/-- The four `delete req.session.*` statements run on every callback cleanup path. -/
def clearTransients (s : Session) : Session :=
  { s with codeVerifier := none, state := none, nonce := none, isSso := none }

/-- GET /auth/sso. `hash` stands for openid-client's calculatePKCECodeChallenge
(the SHA-256/base64url transform); `oidcOk` is whether getOidcConfig resolved;
`saveOk` is whether the session store acknowledged req.session.save. On a failed
save the store keeps the pre-request session and the catch block answers 500. -/
def handleSso (hash : String → String) (baseUrl : String) (oidcOk : Bool)
    (codeVerifier st n : String) (saveOk : Bool) (s : Session) : Session × Response :=
  match oidcOk with
  | false => (s, Response.json 500 (JsonBody.errorMsg "Failed to initiate SSO"))
  | true =>
    let codeChallenge := hash codeVerifier
    let s1 : Session :=
      { s with codeVerifier := some codeVerifier, state := some st,
               nonce := some n, isSso := some true }
    match saveOk with
    | false => (s, Response.json 500 (JsonBody.errorMsg "Failed to initiate SSO"))
    | true =>
      (s1, Response.authRedirect
        { redirect_uri := baseUrl ++ "/auth/callback",
          scope := "openid profile email User.Read",
          code_challenge := codeChallenge,
          code_challenge_method := "S256",
          state := st, nonce := n, prompt := some "none" })

/-- GET /auth/login. Identical to /auth/sso except it never touches
`isSso` and omits `prompt=none`. -/
def handleLogin (hash : String → String) (baseUrl : String) (oidcOk : Bool)
    (codeVerifier st n : String) (saveOk : Bool) (s : Session) : Session × Response :=
  match oidcOk with
  | false => (s, Response.json 500 (JsonBody.errorMsg "Failed to initiate login"))
  | true =>
    let codeChallenge := hash codeVerifier
    let s1 : Session :=
      { s with codeVerifier := some codeVerifier, state := some st, nonce := some n }
    match saveOk with
    | false => (s, Response.json 500 (JsonBody.errorMsg "Failed to initiate login"))
    | true =>
      (s1, Response.authRedirect
        { redirect_uri := baseUrl ++ "/auth/callback",
          scope := "openid profile email User.Read",
          code_challenge := codeChallenge,
          code_challenge_method := "S256",
          state := st, nonce := n, prompt := none })

/-- The query parameters the callback handler reads from the callback URL. -/
structure CallbackQuery where
  error : Option String
  error_description : Option String
  state : Option String
deriving DecidableEq, Repr

/-- ID-token claims as surfaced by tokens.claims(). -/
structure Claims where
  name : Option String
  email : Option String
  preferred_username : Option String
  sub : Option String
  oid : Option String
deriving DecidableEq, Repr

/-- Result of a successful authorizationCodeGrant call. -/
structure TokenResponse where
  claims : Claims
  access_token : Option String
  refresh_token : Option String
  id_token : Option String
  expires_at : Option Nat
deriving DecidableEq, Repr

/-- The callback handler's catch block: it consults the live
`req.session.isSso` and cleans up only on the silent path. -/
def catchBranch (s : Session) : Session × Response :=
  if s.isSso = some true then
    (clearTransients s, Response.redirect "/?sso_failed=true")
  else
    (s, Response.send 500 "Authentication failed. Please try again.")

/-- GET /auth/callback. `oidcOk` is getOidcConfig resolving; `exchange` is the
outcome of openid-client's authorizationCodeGrant (which itself validates PKCE,
nonce and the ID token): `none` means it threw. The state check mirrors
`!req.session.state || state !== req.session.state` including JS truthiness. -/
def handleCallback (oidcOk : Bool) (q : CallbackQuery) (exchange : Option TokenResponse)
    (s : Session) : Session × Response :=
  match oidcOk with
  | false => catchBranch s
  | true =>
    if strTruthy q.error then
      let s1 := clearTransients s
      if s.isSso = some true then
        (s1, Response.redirect "/?sso_failed=true")
      else
        (s1, Response.json 400
          (JsonBody.authError "Authentication failed" q.error q.error_description))
    else if strTruthy s.state = false ∨ q.state ≠ s.state then
      (clearTransients s, Response.send 400 "State mismatch - possible CSRF attack")
    else
      match exchange with
      | none => catchBranch s
      | some t =>
        let user : UserInfo :=
          { name := t.claims.name,
            email := jsOrStr t.claims.email t.claims.preferred_username,
            sub := t.claims.sub, oid := t.claims.oid }
        let s1 : Session :=
          { s with user := some user,
                   tokens := some { accessToken := t.access_token,
                                    refreshToken := t.refresh_token,
                                    idToken := t.id_token,
                                    expiresAt := t.expires_at },
                   authenticated := true }
        (clearTransients s1, Response.redirect "/")

/-- GET /auth/me. `freshCsrf` stands for the crypto.randomBytes(32).toString value
generated when no csrfToken is stored yet. -/
def handleMe (freshCsrf : String) (s : Session) : Session × Response :=
  if s.authenticated = true ∧ s.user.isSome then
    let s1 := if strTruthy s.csrfToken then s else { s with csrfToken := some freshCsrf }
    (s1, Response.json 200 (JsonBody.me true s.user s1.csrfToken))
  else
    (s, Response.json 200 (JsonBody.me false none none))

/-- The Entra logout URL the logout handler builds; `enc` stands for
encodeURIComponent. -/
def buildLogoutUrl (enc : String → String) (tenantId baseUrl : String)
    (idToken : Option String) : String :=
  let base := "https://login.microsoftonline.com/" ++ tenantId ++
    "/oauth2/v2.0/logout?post_logout_redirect_uri=" ++ enc baseUrl
  if strTruthy idToken then
    base ++ "&id_token_hint=" ++ enc (idToken.getD "")
  else
    base

/-- POST /auth/logout. `destroyOk` is whether the store's session deletion
succeeded; the code calls req.session.destroy with a log-only callback and
sends the response without waiting, so the response does not depend on
`destroyOk` — on a failed destroy the store keeps the session. -/
def handleLogout (enc : String → String) (tenantId baseUrl : String)
    (bodyToken headerToken : Option String) (destroyOk : Bool)
    (s : Session) : Session × Response :=
  let presented := jsOrStr bodyToken headerToken
  if strTruthy s.csrfToken = false ∨ presented ≠ s.csrfToken then
    (s, Response.json 403 (JsonBody.errorMsg "Invalid CSRF token"))
  else
    let idToken := s.tokens.bind (fun t => t.idToken)
    let s1 := match destroyOk with
      | true => emptySession
      | false => s
    (s1, Response.json 200 (JsonBody.logout (buildLogoutUrl enc tenantId baseUrl idToken)))

/-- A session with an interactive flow in flight (transients set, `isSso` unset). -/
def interactiveFlowSession : Session :=
  { codeVerifier := some "v", state := some "st", nonce := some "n" }

/-- A session with a silent flow in flight (transients set, `isSso = true`). -/
def silentFlowSession : Session :=
  { codeVerifier := some "v", state := some "st", nonce := some "n", isSso := some true }

/-- C6: every flow initiation builds an authorization URL carrying
code_challenge_method=S256, a code_challenge that is the PKCE transform of the
verifier persisted in the session, the persisted state and nonce, and the
redirect URI; the silent variant sets prompt=none, the interactive one does not. -/
theorem initiate_flow_authorization_url (hash : String → String) (baseUrl : String)
    (v st n : String) (s : Session) :
    (handleSso hash baseUrl true v st n true s).1.codeVerifier = some v ∧
    (handleSso hash baseUrl true v st n true s).1.state = some st ∧
    (handleSso hash baseUrl true v st n true s).1.nonce = some n ∧
    (handleSso hash baseUrl true v st n true s).2 = Response.authRedirect
      { redirect_uri := baseUrl ++ "/auth/callback",
        scope := "openid profile email User.Read",
        code_challenge := hash v, code_challenge_method := "S256",
        state := st, nonce := n, prompt := some "none" } ∧
    (handleLogin hash baseUrl true v st n true s).1.codeVerifier = some v ∧
    (handleLogin hash baseUrl true v st n true s).1.state = some st ∧
    (handleLogin hash baseUrl true v st n true s).1.nonce = some n ∧
    (handleLogin hash baseUrl true v st n true s).2 = Response.authRedirect
      { redirect_uri := baseUrl ++ "/auth/callback",
        scope := "openid profile email User.Read",
        code_challenge := hash v, code_challenge_method := "S256",
        state := st, nonce := n, prompt := none } :=
  ⟨rfl, rfl, rfl, rfl, rfl, rfl, rfl, rfl⟩

/-- The session after a silent initiation followed by an interactive one. -/
def ssoThenLoginSession : Session :=
  (handleLogin id "b" true "v2" "s2" "n2" true
    (handleSso id "b" true "v1" "s1" "n1" true emptySession).1).1

/-- C8 counterexample: an interactive initiation after a silent one overwrites
verifier, state and nonce but NOT the mode flag — `isSso` stays `true`, and the
subsequent callback handles a provider error as a silent failure. -/
theorem second_initiation_keeps_stale_mode_flag :
    ssoThenLoginSession.codeVerifier = some "v2" ∧
    ssoThenLoginSession.state = some "s2" ∧
    ssoThenLoginSession.nonce = some "n2" ∧
    ssoThenLoginSession.isSso = some true ∧
    (handleCallback true ⟨some "interaction_required", none, none⟩ none
        ssoThenLoginSession).2 = Response.redirect "/?sso_failed=true" := by
  decide

/-- C8 amended: a second initiation overwrites verifier, state and nonce;
/auth/sso additionally sets `isSso := true`, but /auth/login leaves any prior
`isSso` flag untouched, so the callback can still observe the first attempt's
silent mode. -/
theorem second_initiation_overwrite (hash : String → String) (baseUrl : String)
    (v st n : String) (s : Session) :
    (handleLogin hash baseUrl true v st n true s).1 =
      { s with codeVerifier := some v, state := some st, nonce := some n } ∧
    (handleSso hash baseUrl true v st n true s).1 =
      { s with codeVerifier := some v, state := some st, nonce := some n,
               isSso := some true } :=
  ⟨rfl, rfl⟩

/-- C1 counterexample: when provider-metadata discovery fails, a callback whose
query carries no error parameter and whose state differs from the stored state
takes the catch path and answers 500 with nothing cleared — not the claimed
400 CSRF-mismatch failure. -/
theorem discovery_failure_state_mismatch_not_400 :
    interactiveFlowSession.state = some "st" ∧
    (handleCallback false ⟨none, none, some "X"⟩ none interactiveFlowSession).2 =
      Response.send 500 "Authentication failed. Please try again." ∧
    (handleCallback false ⟨none, none, some "X"⟩ none interactiveFlowSession).1 =
      interactiveFlowSession := by
  decide

/-- C1 amended: provided provider-metadata discovery resolves, a callback
without an error parameter whose query state differs from the stored state (or
with no stored state at all) answers 400 with the CSRF-mismatch message and
clears the transients; the result is the same for every possible token-exchange
outcome, so the exchange is never consulted. (Under a discovery failure the
catch path answers instead — see the counterexample.) -/
theorem callback_state_mismatch_rejects (q : CallbackQuery) (s : Session)
    (ex : Option TokenResponse)
    (herr : q.error = none)
    (hmis : strTruthy s.state = false ∨ q.state ≠ s.state) :
    handleCallback true q ex s =
      (clearTransients s, Response.send 400 "State mismatch - possible CSRF attack") := by
  simp only [handleCallback, herr]
  rw [if_neg (by simp [strTruthy]), if_pos hmis]

/-- C1 witness: concrete state mismatch on an in-flight interactive session. -/
theorem callback_state_mismatch_rejects_witness :
    handleCallback true ⟨none, none, some "X"⟩ none interactiveFlowSession =
      (clearTransients interactiveFlowSession,
       Response.send 400 "State mismatch - possible CSRF attack") :=
  callback_state_mismatch_rejects ⟨none, none, some "X"⟩ interactiveFlowSession none
    rfl (by decide)

/-- C10: /auth/me fails closed on an inconsistent session — if the authenticated
flag is unset or the user record is absent, it answers authenticated:false,
mints no csrfToken and leaves the session unchanged. -/
theorem me_fails_closed (freshCsrf : String) (s : Session)
    (h : s.authenticated = false ∨ s.user = none) :
    handleMe freshCsrf s = (s, Response.json 200 (JsonBody.me false none none)) := by
  rcases h with h | h <;> simp [handleMe, h]

/-- C10 witness: a session with authenticated=true but no user record. -/
theorem me_fails_closed_witness :
    handleMe "f" { authenticated := true } =
      ({ authenticated := true }, Response.json 200 (JsonBody.me false none none)) :=
  me_fails_closed "f" { authenticated := true } (Or.inr rfl)

/-- The csrfToken value an authenticated /auth/me responds with: the stored one
when truthy, otherwise the freshly generated one. -/
def meToken (freshCsrf : String) (s : Session) : String :=
  if strTruthy s.csrfToken then s.csrfToken.getD "" else freshCsrf

/-- A demo identity for concrete witnesses. -/
def demoUser : UserInfo :=
  { name := some "A B", email := some "a@b.com", sub := some "abc", oid := some "o" }

/-- C9: an authenticated status check returns authenticated:true with the user
and a csrfToken; the token is the stored one when present (so it is stable
across repeated calls) and is freshly minted only when absent; the only session
change is that lazy csrfToken write; the response never depends on the stored
tokens; any other session answers authenticated:false. -/
theorem me_status_contract (freshCsrf freshCsrf2 : String) (s : Session) (u : UserInfo)
    (hauth : s.authenticated = true) (huser : s.user = some u) (hfresh : freshCsrf ≠ "") :
    handleMe freshCsrf s =
      ({ s with csrfToken := some (meToken freshCsrf s) },
       Response.json 200 (JsonBody.me true (some u) (some (meToken freshCsrf s)))) ∧
    (s.csrfToken = none → meToken freshCsrf s = freshCsrf) ∧
    (∀ t0 : String, s.csrfToken = some t0 → t0 ≠ "" → meToken freshCsrf s = t0) ∧
    handleMe freshCsrf2 { s with csrfToken := some (meToken freshCsrf s) } =
      ({ s with csrfToken := some (meToken freshCsrf s) },
       Response.json 200 (JsonBody.me true (some u) (some (meToken freshCsrf s)))) ∧
    (∀ tks : Option Tokens,
      (handleMe freshCsrf { s with tokens := tks }).2 = (handleMe freshCsrf s).2) := by
  have htok : meToken freshCsrf s ≠ "" := by
    unfold meToken
    rcases hc : s.csrfToken with _ | v
    · simpa [strTruthy, hc] using hfresh
    · by_cases hv : v = "" <;> simp [strTruthy, hc, hv, hfresh]
  refine ⟨?_, ?_, ?_, ?_, ?_⟩
  · unfold handleMe meToken
    rcases hc : s.csrfToken with _ | v
    · simp [hauth, huser, strTruthy]
    · by_cases hv : v = ""
      · simp [hauth, huser, strTruthy, hv]
      · simp [hauth, huser, strTruthy, hv, hc]
        rw [← hauth, ← huser, ← hc]
  · intro hc; simp [meToken, strTruthy, hc]
  · intro t0 hc ht0; simp [meToken, strTruthy, hc, ht0]
  · unfold handleMe
    simp [hauth, huser, strTruthy, htok]
  · intro tks
    unfold handleMe
    by_cases hc : strTruthy s.csrfToken <;> simp [hauth, huser, hc]

/-- C9 witness: concrete authenticated session without a stored token; the
response mints "f" and a repeat call is stable. -/
theorem me_status_contract_witness :
    handleMe "f" { authenticated := true, user := some demoUser } =
      ({ authenticated := true, user := some demoUser, csrfToken := some "f" },
       Response.json 200 (JsonBody.me true (some demoUser) (some "f"))) :=
  (me_status_contract "f" "g" { authenticated := true, user := some demoUser }
    demoUser rfl rfl (by decide)).1

/-- C2: logout answers 403 whenever the stored csrfToken is absent or the
presented token (body, falling back to header) differs from it; with a matching
token and an acknowledged destroy the store ends up with the empty session and
the response is a 200; a repeat logout with the old token against the destroyed
session answers 403, and a status check on it reports authenticated:false. -/
theorem logout_csrf_contract (enc : String → String) (tenantId baseUrl : String)
    (bodyToken headerToken : Option String) (destroyOk : Bool) (s : Session)
    (freshCsrf tok : String) :
    ((s.csrfToken = none ∨ jsOrStr bodyToken headerToken ≠ s.csrfToken) →
      (handleLogout enc tenantId baseUrl bodyToken headerToken destroyOk s).2 =
        Response.json 403 (JsonBody.errorMsg "Invalid CSRF token")) ∧
    (s.csrfToken = some tok → tok ≠ "" → jsOrStr bodyToken headerToken = some tok →
      destroyOk = true →
      (handleLogout enc tenantId baseUrl bodyToken headerToken destroyOk s).1 =
        emptySession ∧
      ((handleLogout enc tenantId baseUrl bodyToken headerToken destroyOk s).2).status
        = 200) ∧
    (handleLogout enc tenantId baseUrl (some tok) none destroyOk emptySession).2 =
      Response.json 403 (JsonBody.errorMsg "Invalid CSRF token") ∧
    (handleMe freshCsrf emptySession).2 =
      Response.json 200 (JsonBody.me false none none) := by
  refine ⟨?_, ?_, ?_, ?_⟩
  · intro h
    unfold handleLogout
    rcases h with h | h
    · simp [h, strTruthy]
    · rw [if_pos (Or.inr h)]
  · intro hc ht hp hd
    subst hd
    unfold handleLogout
    rw [if_neg (by simp [hc, hp, strTruthy, ht])]
    exact ⟨rfl, rfl⟩
  · unfold handleLogout
    simp [emptySession, strTruthy]
  · rfl

/-- C2 witness: concrete matching logout destroys the session; a header-only
wrong token is rejected. -/
theorem logout_csrf_contract_witness :
    (handleLogout id "tid" "b" (some "k") none true { csrfToken := some "k" }).1 =
      emptySession ∧
    ((handleLogout id "tid" "b" (some "k") none true { csrfToken := some "k" }).2).status
      = 200 ∧
    (handleLogout id "tid" "b" none (some "x") true { csrfToken := some "k" }).2 =
      Response.json 403 (JsonBody.errorMsg "Invalid CSRF token") :=
  ⟨((logout_csrf_contract id "tid" "b" (some "k") none true { csrfToken := some "k" }
      "f" "k").2.1 rfl (by decide) (by decide) rfl).1,
   ((logout_csrf_contract id "tid" "b" (some "k") none true { csrfToken := some "k" }
      "f" "k").2.1 rfl (by decide) (by decide) rfl).2,
   (logout_csrf_contract id "tid" "b" none (some "x") true { csrfToken := some "k" }
      "f" "k").1 (Or.inr (by decide))⟩

/-- C7 counterexample: with a valid CSRF token but a FAILED session destruction,
logout still answers 200 and the store still holds the session — the response is
sent without awaiting the destruction's acknowledgement. -/
theorem logout_destroy_not_awaited :
    ((handleLogout id "tid" "b" (some "k") none false { csrfToken := some "k" }).2).status
      = 200 ∧
    (handleLogout id "tid" "b" (some "k") none false { csrfToken := some "k" }).1 =
      { csrfToken := some "k" } := by
  decide

/-- C7 amended: a failed save of the flow-initiation transients fails the
request with a 500 and the store keeps the pre-request session; logout's
response, by contrast, is identical whether or not the store acknowledged the
destruction (the destroy callback only logs). -/
theorem persistence_acknowledgement (hash enc : String → String)
    (baseUrl tenantId : String) (v st n : String) (bt ht : Option String)
    (s : Session) :
    handleSso hash baseUrl true v st n false s =
      (s, Response.json 500 (JsonBody.errorMsg "Failed to initiate SSO")) ∧
    handleLogin hash baseUrl true v st n false s =
      (s, Response.json 500 (JsonBody.errorMsg "Failed to initiate login")) ∧
    (handleLogout enc tenantId baseUrl bt ht true s).2 =
      (handleLogout enc tenantId baseUrl bt ht false s).2 := by
  refine ⟨rfl, rfl, ?_⟩
  unfold handleLogout
  by_cases h : strTruthy s.csrfToken = false ∨ jsOrStr bt ht ≠ s.csrfToken <;> simp [h]

/-- C3 counterexample: an interactive-mode token-exchange failure answers 500
but leaves the transient fields (codeVerifier, state, nonce) in the session —
contrary to the claim that every failure path clears them. -/
theorem interactive_exchange_failure_keeps_transients :
    (handleCallback true ⟨none, none, some "st"⟩ none interactiveFlowSession).1 =
      interactiveFlowSession ∧
    (handleCallback true ⟨none, none, some "st"⟩ none interactiveFlowSession).2 =
      Response.send 500 "Authentication failed. Please try again." ∧
    interactiveFlowSession.codeVerifier = some "v" ∧
    interactiveFlowSession.state = some "st" ∧
    interactiveFlowSession.nonce = some "n" := by
  decide

/-- C3 amended: no callback failure path touches authenticated/user/tokens, and
the post-session of every failure is exactly: all four transients cleared on
the error-param path and on the state-mismatch path (both modes), and on a
provider/exchange failure the transients cleared when the in-flight mode is
silent but the session left entirely unchanged when it is interactive; on
success user/tokens/authenticated are set and all transients cleared together. -/
theorem callback_effects (oidcOk : Bool) (q : CallbackQuery)
    (ex : Option TokenResponse) (s : Session) :
    ((handleCallback oidcOk q ex s).2 ≠ Response.redirect "/" →
      ((handleCallback oidcOk q ex s).1.authenticated = s.authenticated ∧
       (handleCallback oidcOk q ex s).1.user = s.user ∧
       (handleCallback oidcOk q ex s).1.tokens = s.tokens) ∧
      (handleCallback oidcOk q ex s).1 =
        (if oidcOk = true ∧ strTruthy q.error = true then clearTransients s
         else if oidcOk = true ∧ (strTruthy s.state = false ∨ q.state ≠ s.state) then
           clearTransients s
         else if s.isSso = some true then clearTransients s
         else s)) ∧
    ((handleCallback oidcOk q ex s).2 = Response.redirect "/" →
      (handleCallback oidcOk q ex s).1.codeVerifier = none ∧
      (handleCallback oidcOk q ex s).1.state = none ∧
      (handleCallback oidcOk q ex s).1.nonce = none ∧
      (handleCallback oidcOk q ex s).1.isSso = none ∧
      (handleCallback oidcOk q ex s).1.authenticated = true ∧
      (handleCallback oidcOk q ex s).1.user.isSome = true ∧
      (handleCallback oidcOk q ex s).1.tokens.isSome = true) := by
  cases oidcOk with
  | false =>
    by_cases hs : s.isSso = some true <;>
      simp [handleCallback, catchBranch, hs, clearTransients]
  | true =>
    by_cases herr : strTruthy q.error = true
    · by_cases hs : s.isSso = some true <;>
        simp [handleCallback, catchBranch, herr, hs, clearTransients]
    · by_cases hmis : strTruthy s.state = false ∨ q.state ≠ s.state
      · simp [handleCallback, catchBranch, herr, hmis, clearTransients]
      · cases ex with
        | none =>
          by_cases hs : s.isSso = some true <;>
            simp [handleCallback, catchBranch, herr, hmis, hs, clearTransients]
        | some t =>
          simp [handleCallback, catchBranch, herr, hmis, clearTransients]

/-- Concrete token-exchange result for witnesses. -/
def demoTok : TokenResponse :=
  { claims := { name := some "A B", email := some "a@b.com",
                preferred_username := some "a@b.com", sub := some "abc",
                oid := some "o" },
    access_token := some "at", refresh_token := some "rt",
    id_token := some "idt", expires_at := some 3600 }

/-- C3 witness: a concrete interactive-mode provider-error callback clears all
four transients while leaving authenticated/user/tokens untouched. -/
theorem callback_effects_witness :
    ((handleCallback true ⟨some "access_denied", some "d", none⟩ none
        interactiveFlowSession).1.authenticated =
          interactiveFlowSession.authenticated ∧
     (handleCallback true ⟨some "access_denied", some "d", none⟩ none
        interactiveFlowSession).1.user = interactiveFlowSession.user ∧
     (handleCallback true ⟨some "access_denied", some "d", none⟩ none
        interactiveFlowSession).1.tokens = interactiveFlowSession.tokens) ∧
    (handleCallback true ⟨some "access_denied", some "d", none⟩ none
        interactiveFlowSession).1 = clearTransients interactiveFlowSession :=
  (callback_effects true ⟨some "access_denied", some "d", none⟩ none
    interactiveFlowSession).1 (by decide)

/-- C4 counterexample: a state mismatch on a SILENT in-flight session answers a
plain 400 body, not the /?sso_failed=true redirect — a silent-mode failure that
is a 4xx response. -/
theorem silent_state_mismatch_returns_400 :
    silentFlowSession.isSso = some true ∧
    (handleCallback true ⟨none, none, some "WRONG"⟩ none silentFlowSession).2 =
      Response.send 400 "State mismatch - possible CSRF attack" ∧
    ((handleCallback true ⟨none, none, some "WRONG"⟩ none silentFlowSession).2).status
      = 400 := by
  decide

/-- C4 amended: in silent mode the failure response is exactly determined by
the path — the 400 state-mismatch body precisely when the state check fails,
and the /?sso_failed=true redirect on every other failure (provider error,
discovery failure, exchange failure); in interactive mode every failure is a
4xx/5xx and never a redirect of any kind. -/
theorem callback_failure_reporting (oidcOk : Bool) (q : CallbackQuery)
    (ex : Option TokenResponse) (s : Session) :
    (s.isSso = some true →
      (handleCallback oidcOk q ex s).2 ≠ Response.redirect "/" →
      (handleCallback oidcOk q ex s).2 =
        (if oidcOk = true ∧ ¬(strTruthy q.error = true) ∧
            (strTruthy s.state = false ∨ q.state ≠ s.state) then
           Response.send 400 "State mismatch - possible CSRF attack"
         else Response.redirect "/?sso_failed=true")) ∧
    (s.isSso ≠ some true →
      (handleCallback oidcOk q ex s).2 ≠ Response.redirect "/" →
      400 ≤ ((handleCallback oidcOk q ex s).2).status ∧
      ((handleCallback oidcOk q ex s).2).status ≤ 599 ∧
      (∀ loc : String, (handleCallback oidcOk q ex s).2 ≠ Response.redirect loc)) := by
  cases oidcOk with
  | false =>
    by_cases hs : s.isSso = some true <;>
      simp [handleCallback, catchBranch, hs, Response.status]
  | true =>
    by_cases herr : strTruthy q.error = true
    · by_cases hs : s.isSso = some true <;>
        simp [handleCallback, catchBranch, herr, hs, Response.status]
    · by_cases hmis : strTruthy s.state = false ∨ q.state ≠ s.state
      · by_cases hs : s.isSso = some true <;>
          simp [handleCallback, catchBranch, herr, hmis, hs, Response.status]
      · cases ex with
        | none =>
          by_cases hs : s.isSso = some true <;>
            simp [handleCallback, catchBranch, herr, hmis, hs, Response.status]
        | some t =>
          simp [handleCallback, catchBranch, herr, hmis, Response.status]

/-- C4 witness: a concrete silent-mode provider error is folded into the
/?sso_failed=true redirect. -/
theorem callback_failure_reporting_witness :
    (handleCallback true ⟨some "interaction_required", none, none⟩ none
        silentFlowSession).2 = Response.redirect "/?sso_failed=true" :=
  (callback_failure_reporting true ⟨some "interaction_required", none, none⟩ none
    silentFlowSession).1 rfl (by decide)

/-- The sessions the store can hold after any sequence of the four endpoint
handlers, starting from a fresh (or TTL-expired) session, for arbitrary
request inputs and arbitrary provider / store outcomes. -/
inductive Reachable : Session → Prop where
  | init : Reachable emptySession
  | sso : ∀ {s : Session} (hash : String → String) (baseUrl : String) (oidcOk : Bool)
      (v st n : String) (saveOk : Bool), Reachable s →
      Reachable (handleSso hash baseUrl oidcOk v st n saveOk s).1
  | login : ∀ {s : Session} (hash : String → String) (baseUrl : String) (oidcOk : Bool)
      (v st n : String) (saveOk : Bool), Reachable s →
      Reachable (handleLogin hash baseUrl oidcOk v st n saveOk s).1
  | callback : ∀ {s : Session} (oidcOk : Bool) (q : CallbackQuery)
      (ex : Option TokenResponse), Reachable s →
      Reachable (handleCallback oidcOk q ex s).1
  | me : ∀ {s : Session} (freshCsrf : String), Reachable s →
      Reachable (handleMe freshCsrf s).1
  | logout : ∀ {s : Session} (enc : String → String) (tenantId baseUrl : String)
      (bt ht : Option String) (destroyOk : Bool), Reachable s →
      Reachable (handleLogout enc tenantId baseUrl bt ht destroyOk s).1

/-- The authenticated-phase consistency property of a session. -/
def AuthConsistent (s : Session) : Prop :=
  s.authenticated = true → s.user.isSome = true ∧ s.tokens.isSome = true

theorem authConsistent_handleSso (hash : String → String) (baseUrl : String)
    (oidcOk : Bool) (v st n : String) (saveOk : Bool) (s : Session)
    (h : AuthConsistent s) :
    AuthConsistent (handleSso hash baseUrl oidcOk v st n saveOk s).1 := by
  cases oidcOk <;> cases saveOk <;>
    simpa [handleSso, AuthConsistent] using h

theorem authConsistent_handleLogin (hash : String → String) (baseUrl : String)
    (oidcOk : Bool) (v st n : String) (saveOk : Bool) (s : Session)
    (h : AuthConsistent s) :
    AuthConsistent (handleLogin hash baseUrl oidcOk v st n saveOk s).1 := by
  cases oidcOk <;> cases saveOk <;>
    simpa [handleLogin, AuthConsistent] using h

theorem authConsistent_handleCallback (oidcOk : Bool) (q : CallbackQuery)
    (ex : Option TokenResponse) (s : Session) (h : AuthConsistent s) :
    AuthConsistent (handleCallback oidcOk q ex s).1 := by
  cases oidcOk with
  | false =>
    by_cases hs : s.isSso = some true <;>
      simpa [handleCallback, catchBranch, hs, clearTransients, AuthConsistent] using h
  | true =>
    by_cases herr : strTruthy q.error = true
    · by_cases hs : s.isSso = some true <;>
        simpa [handleCallback, catchBranch, herr, hs, clearTransients, AuthConsistent]
          using h
    · by_cases hmis : strTruthy s.state = false ∨ q.state ≠ s.state
      · simpa [handleCallback, catchBranch, herr, hmis, clearTransients, AuthConsistent]
          using h
      · cases ex with
        | none =>
          by_cases hs : s.isSso = some true <;>
            simpa [handleCallback, catchBranch, herr, hmis, hs, clearTransients,
                   AuthConsistent] using h
        | some t =>
          simp [handleCallback, catchBranch, herr, hmis, clearTransients, AuthConsistent]

theorem authConsistent_handleMe (freshCsrf : String) (s : Session)
    (h : AuthConsistent s) :
    AuthConsistent (handleMe freshCsrf s).1 := by
  unfold handleMe
  by_cases ha : s.authenticated = true ∧ s.user.isSome
  · by_cases hc : strTruthy s.csrfToken <;>
      simpa [ha, hc, AuthConsistent] using h
  · simpa [ha, AuthConsistent] using h

theorem authConsistent_handleLogout (enc : String → String) (tenantId baseUrl : String)
    (bt ht : Option String) (destroyOk : Bool) (s : Session) (h : AuthConsistent s) :
    AuthConsistent (handleLogout enc tenantId baseUrl bt ht destroyOk s).1 := by
  unfold handleLogout
  by_cases hc : strTruthy s.csrfToken = false ∨ jsOrStr bt ht ≠ s.csrfToken
  · simpa [hc] using h
  · cases destroyOk with
    | false => simpa [hc] using h
    | true => simp [hc, AuthConsistent, emptySession]

/-- C5 amended: in every reachable session, authenticated=true implies the user
record and the token set are both present. (The mutual-exclusion half of the
claim fails, see the counterexample.) -/
theorem reachable_auth_consistent (s : Session) (hr : Reachable s)
    (hauth : s.authenticated = true) :
    s.user.isSome = true ∧ s.tokens.isSome = true := by
  suffices h : AuthConsistent s from h hauth
  clear hauth
  induction hr with
  | init => intro h; exact absurd h (by simp [emptySession])
  | sso hash baseUrl oidcOk v st n saveOk hprev ih =>
    exact authConsistent_handleSso hash baseUrl oidcOk v st n saveOk _ ih
  | login hash baseUrl oidcOk v st n saveOk hprev ih =>
    exact authConsistent_handleLogin hash baseUrl oidcOk v st n saveOk _ ih
  | callback oidcOk q ex hprev ih =>
    exact authConsistent_handleCallback oidcOk q ex _ ih
  | me freshCsrf hprev ih =>
    exact authConsistent_handleMe freshCsrf _ ih
  | logout enc tenantId baseUrl bt ht destroyOk hprev ih =>
    exact authConsistent_handleLogout enc tenantId baseUrl bt ht destroyOk _ ih

/-- Login, then a successful callback. -/
def authSession : Session :=
  (handleCallback true ⟨none, none, some "s1"⟩ (some demoTok)
    (handleLogin id "b" true "v1" "s1" "n1" true emptySession).1).1

/-- A re-login on the authenticated session. -/
def reloginSession : Session :=
  (handleLogin id "b" true "v2" "s2" "n2" true authSession).1

/-- C5 counterexample: after login → successful callback → second login, the
store holds a reachable session carrying BOTH the authenticated-phase fields and
the transient flow fields, so the two phases are not mutually exclusive. -/
theorem phases_can_coexist :
    Reachable reloginSession ∧
    reloginSession.authenticated = true ∧
    reloginSession.user.isSome = true ∧
    reloginSession.tokens.isSome = true ∧
    reloginSession.codeVerifier = some "v2" ∧
    reloginSession.state = some "s2" ∧
    reloginSession.nonce = some "n2" :=
  ⟨Reachable.login id "b" true "v2" "s2" "n2" true
     (Reachable.callback true ⟨none, none, some "s1"⟩ (some demoTok)
       (Reachable.login id "b" true "v1" "s1" "n1" true Reachable.init)),
   by decide, by decide, by decide, by decide, by decide, by decide⟩

/-- C5 witness: the amended invariant applied to the concrete authenticated
session produced by login → successful callback. -/
theorem reachable_auth_consistent_witness :
    authSession.user.isSome = true ∧ authSession.tokens.isSome = true :=
  reachable_auth_consistent authSession
    (Reachable.callback true ⟨none, none, some "s1"⟩ (some demoTok)
      (Reachable.login id "b" true "v1" "s1" "n1" true Reachable.init))
    (by decide)

end TestSSO
